import Mathlib

/-!
Verification of the build-record repository layer
(`easybuild/tools/repository.py`): a shallow embedding of the
`FileRepository`, `GitRepository` and `SvnRepository` classes, and proofs
about their operations.

Modelling conventions:
* Filesystem paths are lists of components (`FPath`); `os.path.join` is
  list append.  The filesystem is an explicit value (`FS`): a set of
  existing directories plus an association of file paths to their text
  content.
* Python exceptions are explicit: each operation that can raise returns
  `Except PyErr _`.  The framework logger (`easybuild.tools.build_log`,
  not part of the sources under verification) is modelled from the spec:
  the `log.error` / `log.exception` channel is fatal ("fatal errors
  surface immediately to the caller", spec section 7), embedded as
  `.error (.easyBuildError _)`, while `log.warning` / `log.debug` only
  record and are embedded as no-ops.
* External VCS client calls (git clone/pull/commit/push/status, svn
  info2/update/checkout/status/add) are environment oracles: their
  outcomes are fields of an environment record (`GitEnv`, `SvnEnv`)
  consumed at the exact program points where the source calls them.
* `stats_to_str` belongs to the external `easyconfig` collaborator; its
  rendered output is taken as an input string (`statsStr`).  Likewise the
  current wall-clock timestamp and `VERBOSE_VERSION` are inputs.
-/

/-- A filesystem path, as its list of components (`os.path.join` = `++`). -/
abbrev FPath := List String

/-- Explicit filesystem state: existing directories and file contents. -/
structure FS where
  dirs : List FPath
  files : List (FPath × String)
deriving Repr, DecidableEq

/-- `os.path.isdir`. -/
def FS.isdir (fs : FS) (p : FPath) : Bool := fs.dirs.contains p

/-- `os.path.isfile`. -/
def FS.isfile (fs : FS) (p : FPath) : Bool := (fs.files.lookup p).isSome

/-- `os.makedirs`: creates the directory and all missing intermediate
directories (every prefix of the path comes to exist). -/
def FS.makedirs (fs : FS) (p : FPath) : FS :=
  { fs with dirs := (List.range (p.length + 1)).map (fun i => p.take i) ++ fs.dirs }

/-- `open(dest, 'w')` followed by writing `content`: truncates any previous
content at that path and stores the new text. -/
def FS.writeFile (fs : FS) (p : FPath) (content : String) : FS :=
  { fs with files := (p, content) :: fs.files.filter (fun q => q.1 ≠ p) }

/-- Modelled from the spec: `rmtree2` (from `easybuild.tools.filetools`,
outside the verified sources) "recursively removes the temporary working
directory" (spec, cleanup): the directory and everything below it are
removed. -/
def FS.rmtree (fs : FS) (p : FPath) : FS :=
  { dirs := fs.dirs.filter (fun d => ¬ p.isPrefixOf d),
    files := fs.files.filter (fun q => ¬ p.isPrefixOf q.1) }

/-- The Python exceptions that can escape the repository operations. -/
inductive PyErr
  /-- `EasyBuildError`, raised by the fatal `log.error` / `log.exception`
  channel (modelled from the spec: fatal errors surface to the caller). -/
  | easyBuildError (msg : String)
  /-- `pysvn.ClientError` propagating uncaught. -/
  | clientError
  /-- `git.GitCommandError` propagating uncaught. -/
  | gitCommandError
  /-- `IndexError` from indexing an empty list. -/
  | indexError
  /-- `AttributeError` from calling a method on `None`. -/
  | attributeError
deriving Repr, DecidableEq

/-- Whether an `Except` value is a normal return. -/
def exOk {ε α : Type} : Except ε α → Bool
  | .ok _ => true
  | .error _ => false

/-- The header line `"# Built with %s on %s\n" % (VERBOSE_VERSION, time.strftime(...))`. -/
def headerLine (verboseVersion timestamp : String) : String :=
  "# Built with " ++ verboseVersion ++ " on " ++ timestamp ++ "\n"

/-- The statistics block appended after the copied easyconfig text:
`"\n# Build statistics\nbuildstats = [" ... "]\n"` when there are no
previous stats, `"\nbuildstats.append(" ... ")\n"` otherwise. -/
def statsBlock (previous : Bool) (statsStr : String) : String :=
  if ¬ previous then
    "\n# Build statistics\nbuildstats = [" ++ statsStr ++ "]\n"
  else
    "\nbuildstats.append(" ++ statsStr ++ ")\n"

/-- `FileRepository.setup_repo`: create the repo directory and the subdir
if they do not exist yet. -/
def FileRepository.setup_repo (repo subdir : FPath) (fs : FS) : FS :=
  let fs := if fs.isdir repo then fs else fs.makedirs repo
  let full_path := repo ++ subdir
  if fs.isdir full_path then fs else fs.makedirs full_path

/-- `FileRepository.create_working_copy`: the working copy is the repo
directory itself (`self.wc = self.repo`). -/
def FileRepository.create_working_copy (repo : FPath) : FPath := repo

/-- `FileRepository.add_easyconfig`: create `wc/subdir/name/`, then write
`version.eb` with (a) the header line, (b) a verbatim copy of the source
easyconfig `cfg`, (c) the statistics block selected by `previous`; return
the destination path.  `open(dest, 'w')` truncates first and the header is
written before `open(cfg)` is attempted, so when the source file cannot be
read the destination is left holding just the header and the `IOError` is
handed to the fatal `log.exception` channel. -/
def FileRepository.add_easyconfig (verboseVersion timestamp : String)
    (wc subdir : FPath) (cfg : FPath) (name version : String)
    (statsStr : String) (previous : Bool) (fs : FS) :
    Except PyErr (FS × FPath) :=
  let full_path := wc ++ subdir ++ [name]
  let fs := if fs.isdir full_path then fs else fs.makedirs full_path
  let dest := full_path ++ [version ++ ".eb"]
  match fs.files.lookup cfg with
  | none =>
      -- `open(cfg)` raises IOError; dest was already truncated and holds
      -- the header; `log.exception` then raises EasyBuildError.
      let fs := fs.writeFile dest (headerLine verboseVersion timestamp)
      let _ := fs
      .error (.easyBuildError "Copying file failed")
  | some cfgContent =>
      let content := headerLine verboseVersion timestamp ++ cfgContent
        ++ statsBlock previous statsStr
      .ok (fs.writeFile dest content, dest)

/-- `FileRepository.get_buildstats`: `[]` when the package directory or the
version file is absent; otherwise parse the file through the external
`EasyConfig` collaborator, abstracted as `reader`. -/
def FileRepository.get_buildstats (reader : String → List String)
    (wc subdir : FPath) (fs : FS) (name version : String) : List String :=
  let full_path := wc ++ subdir ++ [name]
  if ¬ fs.isdir full_path then []
  else
    let dest := full_path ++ [version ++ ".eb"]
    match fs.files.lookup dest with
    | none => []
    | some content => reader content

/-- Python `str.strip(c)`: remove every leading and trailing occurrence of
the character `c`. -/
def stripChar (c : Char) (s : String) : String :=
  String.mk (((s.data.dropWhile (fun d => d = c)).reverse.dropWhile
    (fun d => d = c)).reverse)

/-- The single-quote character, `chr(39)`. -/
def quoteChar : Char := Char.ofNat 39

/-- Python `str.split(sep)` for a one-character separator, on the
character list of the string. -/
def splitChar (sep : Char) : List Char → List (List Char)
  | [] => [[]]
  | c :: t =>
      let r := splitChar sep t
      if c = sep then [] :: r
      else
        match r with
        | [] => [[c]]
        | h :: t2 => (c :: h) :: t2

/-- `out.split("\n")[0].split()[-1].strip(".").strip("'")`: the repository
directory name recovered from the clone output (e.g. from
`Cloning into 'easybuild'...`).  Python `split()` splits on whitespace
(here: spaces) and drops empty fields; `[-1]` on an empty token list
raises `IndexError`, which the surrounding `try` does not catch (it
catches only `GitCommandError`). -/
def parseRepoName (out : String) : Except PyErr String :=
  let line0 := (splitChar (Char.ofNat 10) out.data).headD []
  let toks := (splitChar (Char.ofNat 32) line0).filter (fun t => ¬ t.isEmpty)
  match toks.getLast? with
  | none => .error .indexError
  | some t =>
      .ok (stripChar quoteChar (stripChar (Char.ofNat 46) (String.mk t)))

/-- Outcomes of the external GitPython client calls, plus the ambient
environment (availability of GitPython, the name `tempfile.mkdtemp`
allocates, host/time/user for the commit message, whether `rmtree2`
fails). -/
structure GitEnv where
  gitAvailable : Bool
  tmpdir : String
  cloneResult : Except Unit String
  pullResult : Except Unit Unit
  statusResult : Except Unit String
  commitResult : Except Unit Unit
  pushResult : Except Unit Unit
  rmtreeFails : Bool
  hostname : String
  timestamp : String
  username : String

/-- The mutable fields of a `GitRepository` object: the remote location,
the subdirectory qualifier, the working-copy path and the lazily created
client (modelled by the path it is bound to). -/
structure GitState where
  repo : String
  subdir : FPath
  wc : FPath
  client : Option FPath
deriving Repr, DecidableEq

/-- `GitRepository.setup_repo`: probe that GitPython is importable
(`git.GitCommandError`; a `NameError` is handed to the fatal
`log.exception` channel), then allocate a fresh temporary directory as the
working copy. -/
def GitRepository.setup_repo (env : GitEnv) (st : GitState) (fs : FS) :
    Except PyErr (GitState × FS) :=
  if ¬ env.gitAvailable then
    .error (.easyBuildError "It seems like GitPython is not available")
  else
    .ok ({ st with wc := [env.tmpdir] }, fs.makedirs [env.tmpdir])

/-- `GitRepository.create_working_copy`: try to clone the remote into the
temporary directory (a `GitCommandError` is only a `log.warning`, leaving
`reponame = 'UNKNOWN'`); repoint `self.wc` to the cloned subdirectory and
attach a client there (`git.Git` is lazy and does not fail); finally pull,
where a failure goes to the fatal `log.exception` channel. -/
def GitRepository.create_working_copy (env : GitEnv) (st : GitState)
    (fs : FS) : Except PyErr (GitState × FS) := do
  let (reponame, fs) ←
    match env.cloneResult with
    | .error _ =>
        -- log.warning("Git local repo initialization failed, ...")
        pure ("UNKNOWN", fs)
    | .ok out => do
        let name ← parseRepoName out
        pure (name, fs.makedirs (st.wc ++ [name]))
  let st := { st with wc := st.wc ++ [reponame] }
  let st := { st with client := some st.wc }
  match env.pullResult with
  | .error _ => .error (.easyBuildError "pull in working copy went wrong")
  | .ok _ => pure (st, fs)

/-- `GitRepository.add_easyconfig`: delegate the write to
`FileRepository.add_easyconfig`, stage the destination (`git add`; a
`GitCommandError` is only a `log.warning`), and fall off the end of the
method — Python then returns `None`, embedded as `none`. -/
def GitRepository.add_easyconfig (env : GitEnv)
    (verboseVersion timestamp : String) (cfg : FPath)
    (name version : String) (statsStr : String) (previous : Bool)
    (st : GitState) (fs : FS) : Except PyErr (FS × Option FPath) :=
  match FileRepository.add_easyconfig verboseVersion timestamp st.wc
      st.subdir cfg name version statsStr previous fs with
  | .error e => .error e
  | .ok (fs, dest) =>
      if dest ≠ [] then
        -- try: self.client.add(dest) / except GitCommandError: log.warning
        .ok (fs, none)
      else
        .ok (fs, none)

/-- The structured commit message both VCS backends build:
`"EasyBuild-commit from %s (time: %s, user: %s) \n%s"`. -/
def commitMsg (host time user : String) (msg : String) : String :=
  "EasyBuild-commit from " ++ host ++ " (time: " ++ time ++ ", user: "
    ++ user ++ ") \n" ++ msg

/-- `GitRepository.commit`: build the complete message, log the client
status (an error raised by `status()` is not caught), then commit and
push; a failure of either goes to the non-fatal `log.warning` channel, so
the method returns normally. -/
def GitRepository.commit (env : GitEnv) (msg : String) (st : GitState) :
    Except PyErr GitState :=
  let _completemsg := commitMsg env.hostname env.timestamp env.username msg
  match env.statusResult with
  | .error _ => .error .gitCommandError
  | .ok _ =>
      -- try: self.client.commit(...) / except GitCommandError: log.warning
      -- try: self.client.push()      / except GitCommandError: log.warning
      .ok st

/-- `GitRepository.cleanup`: `rmtree2(self.wc)`; an `IOError` goes to the
fatal `log.exception` channel. -/
def GitRepository.cleanup (env : GitEnv) (st : GitState) (fs : FS) :
    Except PyErr FS :=
  if env.rmtreeFails then
    .error (.easyBuildError "Cannot remove working copy")
  else
    .ok (fs.rmtree st.wc)

/-- Outcomes of the external PySVN client calls, plus availability of the
library, the name `tempfile.mkdtemp` allocates, whether the resolved
target is a valid svn url, and whether `rmtree2` fails. -/
structure SvnEnv where
  pysvnAvailable : Bool
  tmpdir : String
  isUrl : Bool
  info2Result : Except Unit Unit
  updateResult : Except Unit (List Int)
  checkoutResult : Except Unit Int
  statusResult : Except Unit (List Bool)
  addResult : Except Unit Unit
  rmtreeFails : Bool
  hostname : String
  timestamp : String
  username : String

/-- The mutable fields of an `SvnRepository` object.  The remote target is
a path (`os.path.join` is applied to it); the client is `None` until
created. -/
structure SvnState where
  repo : FPath
  subdir : FPath
  wc : FPath
  client : Option Unit
deriving Repr, DecidableEq

/-- The operations `SvnRepository.create_working_copy` can perform against
the client, recorded as a trace. -/
inductive SvnOp
  | info2
  | update
  | checkout
deriving Repr, DecidableEq

/-- `SvnRepository.setup_repo`: first `self.repo = os.path.join(self.repo,
self.subdir)`; then `raise pysvn.ClientError` inside a `try` whose only
handler catches `NameError`.  When pysvn is missing, evaluating
`pysvn.ClientError` raises `NameError`, which is handed to the fatal
`log.exception` channel; when pysvn is available, the deliberately raised
`ClientError` is not caught and propagates.  Either way the method raises,
so the remaining statements of the source (client construction and the
`is_url` validation, lines 328-340) are unreachable.  The updated `repo`
field is returned alongside the error, matching the Python object whose
attribute was already mutated. -/
def SvnRepository.setup_repo (env : SvnEnv) (st : SvnState) :
    SvnState × Option PyErr :=
  let st := { st with repo := st.repo ++ st.subdir }
  if env.pysvnAvailable then
    (st, some .clientError)
  else
    (st, some (.easyBuildError "pysvn not available"))

/-- `SvnRepository.create_working_copy`: allocate a temporary directory,
probe the remote with `info2` (failure is fatal), `update` the directory
(failure is fatal), treat an empty result list as fatal (`log.error`), and
when the first result carries revision number `-1` fall back to a full
`checkout` (whose failure is fatal).  The client operations performed are
returned as a trace alongside the outcome. -/
def SvnRepository.create_working_copy (env : SvnEnv) (st : SvnState)
    (fs : FS) : List SvnOp × Except PyErr (SvnState × FS) :=
  let st := { st with wc := [env.tmpdir] }
  let fs := fs.makedirs [env.tmpdir]
  match env.info2Result with
  | .error _ =>
      ([.info2], .error (.easyBuildError "Getting info failed"))
  | .ok _ =>
      match env.updateResult with
      | .error _ =>
          ([.info2, .update], .error (.easyBuildError "Update went wrong"))
      | .ok [] =>
          -- len(res) == 0 -> log.error (fatal)
          ([.info2, .update], .error (.easyBuildError "Update returned empy list"))
      | .ok (r :: _) =>
          if r = -1 then
            match env.checkoutResult with
            | .error _ =>
                ([.info2, .update, .checkout],
                  .error (.easyBuildError "Checkout went wrong"))
            | .ok _ =>
                ([.info2, .update, .checkout], .ok (st, fs))
          else
            ([.info2, .update], .ok (st, fs))

/-- `SvnRepository.add_easyconfig`: delegate to
`FileRepository.add_easyconfig`; when a destination was returned,
`log.debug` evaluates `self.client.status(dest)` (an `AttributeError` when
the client is `None`, a `ClientError` propagating uncaught otherwise), and
the path is staged (`client.add`) exactly when `self.client` is set and
`status(dest)[0].is_versioned` is false (indexing an empty status list
raises `IndexError`).  The boolean returned alongside records whether
`client.add` was invoked; the method itself falls off the end and returns
`None`. -/
def SvnRepository.add_easyconfig (env : SvnEnv)
    (verboseVersion timestamp : String) (cfg : FPath)
    (name version : String) (statsStr : String) (previous : Bool)
    (st : SvnState) (fs : FS) : Bool × Except PyErr (FS × Option FPath) :=
  match FileRepository.add_easyconfig verboseVersion timestamp st.wc
      st.subdir cfg name version statsStr previous fs with
  | .error e => (false, .error e)
  | .ok (fs, dest) =>
      if dest ≠ [] then
        match st.client with
        | none => (false, .error .attributeError)
        | some _ =>
            match env.statusResult with
            | .error _ => (false, .error .clientError)
            | .ok flags =>
                match flags with
                | [] => (false, .error .indexError)
                | v :: _ =>
                    if ¬ v then
                      match env.addResult with
                      | .error _ => (true, .error .clientError)
                      | .ok _ => (true, .ok (fs, none))
                    else
                      (false, .ok (fs, none))
      else
        (false, .ok (fs, none))

/-- `SvnRepository.commit`: build the complete message and `checkin` the
whole working copy; a `ClientError` goes to the fatal `log.exception`
channel (modelled from the spec's fatal logging channel). -/
def SvnRepository.commit (env : SvnEnv) (checkinResult : Except Unit Unit)
    (msg : String) (st : SvnState) : Except PyErr SvnState :=
  let _completemsg := commitMsg env.hostname env.timestamp env.username msg
  match checkinResult with
  | .error _ => .error (.easyBuildError "Commit from working copy failed")
  | .ok _ => .ok st

/-- `SvnRepository.cleanup`: `rmtree2(self.wc)`; an `OSError` goes to the
fatal `log.exception` channel. -/
def SvnRepository.cleanup (env : SvnEnv) (st : SvnState) (fs : FS) :
    Except PyErr FS :=
  if env.rmtreeFails then
    .error (.easyBuildError "Cannot remove working copy")
  else
    .ok (fs.rmtree st.wc)

/-- Membership test for a character-list segment: `hasSub pat hay` is true
when `pat` occurs contiguously inside `hay`. -/
def hasSub (pat : List Char) : List Char → Bool
  | [] => pat.isEmpty
  | c :: t => pat.isPrefixOf (c :: t) || hasSub pat t

/-- String form of `hasSub`: does `hay` contain `pat` as a substring. -/
def strHasSub (pat hay : String) : Bool := hasSub pat.data hay.data

/-! ## Concrete scenarios

Small concrete filesystems, environments and runs used to exhibit the
behaviour of the operations at explicit inputs. -/

/-- A filesystem holding one source easyconfig `cfg.eb` next to an
existing repository directory `repo`. -/
def fs0 : FS := { dirs := [[], ["repo"]], files := [(["cfg.eb"], "name = gcc\n")] }

/-- A git environment where every client call succeeds; the clone output
is the one quoted in the source comment. -/
def gitEnv0 : GitEnv :=
  { gitAvailable := true, tmpdir := "gitwc",
    cloneResult := .ok "Cloning into 'easybuild'...",
    pullResult := .ok (), statusResult := .ok "clean",
    commitResult := .ok (), pushResult := .ok (), rmtreeFails := false,
    hostname := "node1", timestamp := "2013-01-01_10-00-00", username := "eb" }

/-- An svn environment where every client call succeeds, pysvn is
available and the target is a valid url. -/
def svnEnv0 : SvnEnv :=
  { pysvnAvailable := true, tmpdir := "svnwc", isUrl := true,
    info2Result := .ok (), updateResult := .ok [7],
    checkoutResult := .ok 7, statusResult := .ok [false],
    addResult := .ok (), rmtreeFails := false,
    hostname := "node1", timestamp := "2013-01-01_10-00-00", username := "eb" }

/-- First write of the build record for (gcc, 4.8): no previous stats. -/
def c1Write1 : Except PyErr (FS × FPath) :=
  FileRepository.add_easyconfig "1.0" "2013-01-01_10-00-00" ["repo"] []
    ["cfg.eb"] "gcc" "4.8" "{time: 120}" false fs0

/-- Second write of the same record: `previous = true`. -/
def c1Write2 : Except PyErr (FS × FPath) :=
  match c1Write1 with
  | .ok (fs, _) =>
      FileRepository.add_easyconfig "1.0" "2013-01-01_11-00-00" ["repo"] []
        ["cfg.eb"] "gcc" "4.8" "{time: 90}" true fs
  | .error e => .error e

/-- Observations on the record file after the two writes: the first write
leaves `buildstats = [{time: 120}]` in the file; after the second write
the file no longer mentions the first entries at all, holds no
`buildstats = [` assignment, and consists of just the new append
expression. -/
def c1obs : Bool :=
  match c1Write1, c1Write2 with
  | .ok (fs1, d1), .ok (fs2, d2) =>
      strHasSub "buildstats = [{time: 120}]" ((fs1.files.lookup d1).getD "")
        && !(strHasSub "{time: 120}" ((fs2.files.lookup d2).getD ""))
        && !(strHasSub "buildstats = [" ((fs2.files.lookup d2).getD ""))
        && strHasSub "buildstats.append({time: 90})" ((fs2.files.lookup d2).getD "")
  | _, _ => false

/-- A git repository object whose working copy is the `repo` directory of
`fs0` (so the delegated file write succeeds). -/
def gitSt0 : GitState :=
  { repo := "gitserver:easybuild", subdir := [], wc := ["repo"],
    client := some ["repo"] }

/-- A successful `GitRepository.add_easyconfig` run. -/
def c2run : Except PyErr (FS × Option FPath) :=
  GitRepository.add_easyconfig gitEnv0 "1.0" "2013-01-01_10-00-00"
    ["cfg.eb"] "gcc" "4.8" "{time: 120}" false gitSt0 fs0

/-- Observation: the git backend's add both wrote the record file and
returned `none` instead of its path. -/
def c2obs : Bool :=
  match c2run with
  | .ok (fs, ret) =>
      (fs.files.lookup ["repo", "gcc", "4.8.eb"]).isSome && ret.isNone
  | .error _ => false

/-- An svn repository object as freshly constructed (client not yet set,
nothing resolved). -/
def svnSt0 : SvnState :=
  { repo := ["svnserver", "easybuild"], subdir := ["ebfiles"], wc := [],
    client := none }

/-- The full distributed-backend lifecycle at concrete inputs:
setup, working-copy creation (clone succeeds), commit (the commit step
fails, which is tolerated), cleanup (removal succeeds); the observation is
whether the temporary directory allocated during setup still exists at the
end. -/
def c5run : Bool :=
  match GitRepository.setup_repo { gitEnv0 with commitResult := .error () }
      { gitSt0 with wc := [], client := none } ⟨[[]], []⟩ with
  | .error _ => false
  | .ok (st, fs) =>
      match GitRepository.create_working_copy
          { gitEnv0 with commitResult := .error () } st fs with
      | .error _ => false
      | .ok (st, fs) =>
          match GitRepository.commit { gitEnv0 with commitResult := .error () }
              "built gcc" st with
          | .error _ => false
          | .ok st =>
              match GitRepository.cleanup
                  { gitEnv0 with commitResult := .error () } st fs with
              | .error _ => false
              | .ok fs => fs.isdir ["gitwc"]

/-- A git environment in which every remote-synchronization primitive
(clone, commit, push) fails, while pull and status succeed. -/
def gitEnvFlaky : GitEnv :=
  { gitEnv0 with
    cloneResult := .error ()
    commitResult := .error ()
    pushResult := .error () }

/-! ## Helper lemmas -/

/-- Looking up a freshly written file yields its content. -/
theorem FS.lookup_writeFile (fs : FS) (p : FPath) (content : String) :
    (fs.writeFile p content).files.lookup p = some content := by
  simp [FS.writeFile, List.lookup]

/-- The conditional `makedirs` in `add_easyconfig` does not change the
file map. -/
theorem files_if_makedirs (fs : FS) (p : FPath) :
    (if fs.isdir p then fs else fs.makedirs p).files = fs.files := by
  split <;> rfl

/-- Characterization of a successful `FileRepository.add_easyconfig`: when
the source easyconfig is readable, the write succeeds, stores header +
copy + statistics block at `wc/subdir/name/version.eb`, and returns that
path. -/
theorem add_easyconfig_eq (vv ts : String) (wc subdir cfg : FPath)
    (name version statsStr : String) (previous : Bool) (fs : FS) (c : String)
    (hcfg : fs.files.lookup cfg = some c) :
    FileRepository.add_easyconfig vv ts wc subdir cfg name version statsStr previous fs
      = .ok ((if fs.isdir (wc ++ subdir ++ [name]) then fs
              else fs.makedirs (wc ++ subdir ++ [name])).writeFile
               (wc ++ subdir ++ [name] ++ [version ++ ".eb"])
               (headerLine vv ts ++ c ++ statsBlock previous statsStr),
             wc ++ subdir ++ [name] ++ [version ++ ".eb"]) := by
  have hfiles : (if fs.isdir (wc ++ subdir ++ [name]) then fs
      else fs.makedirs (wc ++ subdir ++ [name])).files = fs.files := by
    split <;> rfl
  simp only [FileRepository.add_easyconfig]
  rw [hfiles, hcfg]

/-- A directory exists exactly when it is listed. -/
theorem FS.isdir_iff_mem (fs : FS) (p : FPath) :
    fs.isdir p = true ↔ p ∈ fs.dirs := by
  simp [FS.isdir, List.elem_iff]

/-- `makedirs` makes its own argument exist. -/
theorem FS.isdir_makedirs_self (fs : FS) (p : FPath) :
    (fs.makedirs p).isdir p = true := by
  rw [FS.isdir_iff_mem]
  simp only [FS.makedirs, List.mem_append]
  left
  exact List.mem_map.mpr ⟨p.length, List.mem_range.mpr (Nat.lt_succ_self _),
    List.take_length p⟩

/-- `makedirs` preserves existing directories. -/
theorem FS.isdir_makedirs_mono (fs : FS) (p q : FPath)
    (h : fs.isdir q = true) : (fs.makedirs p).isdir q = true := by
  rw [FS.isdir_iff_mem] at h ⊢
  simp only [FS.makedirs, List.mem_append]
  right
  exact h

/-- After `rmtree w` no directory at or below `w` exists. -/
theorem FS.isdir_rmtree_under (fs : FS) (w p : FPath)
    (h : w.isPrefixOf p = true) : (fs.rmtree w).isdir p = false := by
  rw [Bool.eq_false_iff]
  intro hc
  rw [FS.isdir_iff_mem] at hc
  simp only [FS.rmtree, List.mem_filter] at hc
  rw [h] at hc
  simp at hc

/-- Filtering out every pair keyed by `p` makes `lookup p` miss. -/
theorem lookup_filter_none {β : Type} (l : List (FPath × β)) (p : FPath)
    (f : FPath × β → Bool) (hf : ∀ b, f (p, b) = false) :
    (l.filter f).lookup p = none := by
  induction l with
  | nil => rfl
  | cons q t ih =>
      obtain ⟨k, v⟩ := q
      by_cases hq : f (k, v) = true
      · rw [List.filter_cons_of_pos hq]
        have hbeq : (p == k) = false := by
          rw [beq_eq_false_iff_ne]
          intro hpq
          rw [← hpq, hf v] at hq
          cases hq
        simp [List.lookup, hbeq, ih]
      · rw [List.filter_cons_of_neg (by simpa using hq)]
        exact ih

/-- After `rmtree w` no file at or below `w` exists. -/
theorem FS.isfile_rmtree_under (fs : FS) (w p : FPath)
    (h : w.isPrefixOf p = true) : (fs.rmtree w).isfile p = false := by
  simp only [FS.isfile, FS.rmtree]
  rw [lookup_filter_none fs.files p _ (fun b => by simp [h])]
  rfl

/-- The file backend's setup is a no-op on a filesystem where both target
directories already exist. -/
theorem file_setup_noop (repo subdir : FPath) (g : FS)
    (h1 : g.isdir repo = true) (h2 : g.isdir (repo ++ subdir) = true) :
    FileRepository.setup_repo repo subdir g = g := by
  simp only [FileRepository.setup_repo, h1, h2, if_true]

/-- The file backend's setup establishes both target directories. -/
theorem file_setup_creates (repo subdir : FPath) (fs : FS) :
    (FileRepository.setup_repo repo subdir fs).isdir repo = true
    ∧ (FileRepository.setup_repo repo subdir fs).isdir (repo ++ subdir) = true := by
  simp only [FileRepository.setup_repo]
  by_cases ha : fs.isdir repo = true
  · rw [if_pos ha]
    by_cases hb : fs.isdir (repo ++ subdir) = true
    · rw [if_pos hb]
      exact ⟨ha, hb⟩
    · rw [if_neg hb]
      exact ⟨FS.isdir_makedirs_mono fs (repo ++ subdir) repo ha,
        FS.isdir_makedirs_self fs (repo ++ subdir)⟩
  · rw [if_neg ha]
    by_cases hb : (fs.makedirs repo).isdir (repo ++ subdir) = true
    · rw [if_pos hb]
      exact ⟨FS.isdir_makedirs_self fs repo, hb⟩
    · rw [if_neg hb]
      exact ⟨FS.isdir_makedirs_mono _ _ _ (FS.isdir_makedirs_self fs repo),
        FS.isdir_makedirs_self _ _⟩

/-! ## Claims -/

/-- C1: the claim says a second `addRecord` with `hasPrevious = true`
appends to the record's history so that `getStats` returns the first
write's entries followed by the second write's.  The code instead opens
the destination with mode `w` on every call, truncating it: evaluated at a
concrete pair of writes for the key (gcc, 4.8), the file after the first
write contains `buildstats = [{time: 120}]`, but after the second write it
no longer contains the first entries at all and holds no `buildstats`
assignment — only `buildstats.append({time: 90})` — so the record cannot
yield the concatenated history. -/
theorem c1_second_write_truncates : c1obs = true := by decide

/-- C2 counterexample: at a concrete input the git backend's
`add_easyconfig` performs the write successfully (the record file is
present in the resulting filesystem) and still returns `None` instead of
the destination path, refuting "never returns nothing on a successful
write" for every backend. -/
theorem c2_git_add_returns_none : c2obs = true := by decide

/-- C2 (amended): the file backend's `addRecord` returns normally exactly
when the source easyconfig is readable, a returned path always points at
the written record file, and on failure it raises instead of returning the
path; the git and svn backends, however, return no path even on a
successful write (their `add_easyconfig` has no return statement). -/
theorem add_record_return_contract (vv ts : String) (wc subdir cfg : FPath)
    (name version statsStr : String) (previous : Bool) (fs : FS) :
    exOk (FileRepository.add_easyconfig vv ts wc subdir cfg name version
        statsStr previous fs) = (fs.files.lookup cfg).isSome
    ∧ (∀ fs' dest,
        FileRepository.add_easyconfig vv ts wc subdir cfg name version
          statsStr previous fs = .ok (fs', dest) →
        (fs'.files.lookup dest).isSome = true)
    ∧ (∀ (env : GitEnv) (st : GitState) (fs' : FS) (ret : Option FPath),
        GitRepository.add_easyconfig env vv ts cfg name version statsStr
          previous st fs = .ok (fs', ret) → ret = none)
    ∧ (∀ (env : SvnEnv) (st : SvnState) (fs' : FS) (ret : Option FPath),
        (SvnRepository.add_easyconfig env vv ts cfg name version statsStr
          previous st fs).2 = .ok (fs', ret) → ret = none) := by
  refine ⟨?_, ?_, ?_, ?_⟩
  · cases hc : fs.files.lookup cfg
    · simp only [FileRepository.add_easyconfig]
      rw [files_if_makedirs, hc]
      rfl
    · simp only [FileRepository.add_easyconfig]
      rw [files_if_makedirs, hc]
      rfl
  · intro fs' dest h
    cases hc : fs.files.lookup cfg with
    | none =>
        simp only [FileRepository.add_easyconfig] at h
        rw [files_if_makedirs, hc] at h
        cases h
    | some c =>
        rw [add_easyconfig_eq vv ts wc subdir cfg name version statsStr
          previous fs c hc] at h
        simp only [Except.ok.injEq, Prod.mk.injEq] at h
        obtain ⟨h1, h2⟩ := h
        rw [← h1, ← h2, FS.lookup_writeFile]
        rfl
  · intro env st fs' ret h
    simp only [GitRepository.add_easyconfig] at h
    cases hfa : FileRepository.add_easyconfig vv ts st.wc st.subdir cfg
        name version statsStr previous fs with
    | error e => rw [hfa] at h; cases h
    | ok p =>
        obtain ⟨fs2, dest⟩ := p
        rw [hfa] at h
        by_cases hd : dest = [] <;> simp [hd] at h <;> exact h.2.symm
  · intro env st fs' ret h
    simp only [SvnRepository.add_easyconfig] at h
    cases hfa : FileRepository.add_easyconfig vv ts st.wc st.subdir cfg
        name version statsStr previous fs with
    | error e => rw [hfa] at h; cases h
    | ok p =>
        obtain ⟨fs2, dest⟩ := p
        rw [hfa] at h
        by_cases hd : dest = []
        · simp [hd] at h
          exact h.2.symm
        · cases hc : st.client with
          | none => simp [hd, hc] at h
          | some u =>
              cases hs : env.statusResult with
              | error e => simp [hd, hc, hs] at h
              | ok flags =>
                  cases flags with
                  | nil => simp [hd, hc, hs] at h
                  | cons v vs =>
                      cases v
                      · cases ha : env.addResult with
                        | error e => simp [hd, hc, hs, ha] at h
                        | ok u2 =>
                            simp [hd, hc, hs, ha] at h
                            exact h.2.symm
                      · simp [hd, hc, hs] at h
                        exact h.2.symm

/-- C2 witness: the amended contract instantiated at a concrete successful
write (file backend returns the path of the written file; git and svn
backends return `none`). -/
theorem witness_c2 :
    exOk (FileRepository.add_easyconfig "1.0" "2013-01-01_10-00-00" ["repo"]
        [] ["cfg.eb"] "gcc" "4.8" "{time: 120}" false fs0)
      = (fs0.files.lookup ["cfg.eb"]).isSome
    ∧ ((⟨[[], ["repo"], ["repo", "gcc"], [], ["repo"]],
        [(["repo", "gcc", "4.8.eb"],
          "# Built with 1.0 on 2013-01-01_10-00-00\nname = gcc\n\n# Build statistics\nbuildstats = [{time: 120}]\n"),
         (["cfg.eb"], "name = gcc\n")]⟩ : FS).files.lookup
        ["repo", "gcc", "4.8.eb"]).isSome = true
    ∧ ((none : Option FPath) = none)
    ∧ ((none : Option FPath) = none) := by
  have H := add_record_return_contract "1.0" "2013-01-01_10-00-00" ["repo"]
    [] ["cfg.eb"] "gcc" "4.8" "{time: 120}" false fs0
  refine ⟨H.1, H.2.1 _ ["repo", "gcc", "4.8.eb"] (by rfl),
    H.2.2.1 gitEnv0 gitSt0 _ none (by rfl),
    H.2.2.2 svnEnv0 ⟨["svnserver"], [], ["repo"], some ()⟩ _ none (by rfl)⟩

/-- C3: the claim says the svn backend's setup completes without raising
when the client library is available and the resolved target is a valid
url.  The code deliberately executes `raise pysvn.ClientError` inside a
`try` that only catches `NameError`, so setup raises on every input: a
propagating `ClientError` when pysvn is available (even with a valid url),
a fatal logger error otherwise.  The validation of the target url (lines
337-338 of the source) is unreachable. -/
theorem svn_setup_repo_always_raises (env : SvnEnv) (st : SvnState) :
    (SvnRepository.setup_repo env st).2 =
      some (if env.pysvnAvailable then PyErr.clientError
            else PyErr.easyBuildError "pysvn not available") := by
  simp only [SvnRepository.setup_repo]
  by_cases h : env.pysvnAvailable <;> simp [h]

/-- C4 counterexample: for the svn backend with root
`svnserver/easybuild` and subdir `ebfiles`, running setup twice resolves
the root to `svnserver/easybuild/ebfiles/ebfiles`, different from the
single run's `svnserver/easybuild/ebfiles`, and the call also fails —
refuting idempotence for every backend. -/
theorem c4_svn_setup_twice_differs :
    ((SvnRepository.setup_repo svnEnv0
        (SvnRepository.setup_repo svnEnv0 svnSt0).1).1).repo
      ≠ ((SvnRepository.setup_repo svnEnv0 svnSt0).1).repo
    ∧ (SvnRepository.setup_repo svnEnv0 svnSt0).2 ≠ none := by decide

/-- C4 (amended): the file backend's setup is idempotent — a second run on
the resulting filesystem changes nothing; the svn backend's setup is not:
each call appends the subdir to the resolved root again (and raises,
cf. C3). -/
theorem setup_repo_idempotence_contract (repo subdir : FPath) (fs : FS)
    (env : SvnEnv) (st : SvnState) :
    FileRepository.setup_repo repo subdir
        (FileRepository.setup_repo repo subdir fs)
      = FileRepository.setup_repo repo subdir fs
    ∧ ((SvnRepository.setup_repo env
        (SvnRepository.setup_repo env st).1).1).repo
      = st.repo ++ st.subdir ++ st.subdir := by
  constructor
  · exact file_setup_noop repo subdir _ (file_setup_creates repo subdir fs).1
      (file_setup_creates repo subdir fs).2
  · have h1 : ∀ (e : SvnEnv) (s : SvnState),
        ((SvnRepository.setup_repo e s).1).repo = s.repo ++ s.subdir
        ∧ ((SvnRepository.setup_repo e s).1).subdir = s.subdir := by
      intro e s
      simp only [SvnRepository.setup_repo]
      by_cases h : e.pysvnAvailable <;> simp [h]
    rw [(h1 env _).1, (h1 env st).1, (h1 env st).2]

/-- C5 counterexample: a full distributed-backend lifecycle — setup
(allocating temporary directory `gitwc`), working-copy creation (the clone
repoints the working copy to `gitwc/easybuild`), a commit whose commit
step fails (tolerated), and a successful cleanup — ends with the temporary
directory allocated during setup still existing: cleanup removed only the
clone subdirectory the working copy had been repointed to. -/
theorem c5_tmpdir_survives_cleanup : c5run = true := by decide

/-- C5 (amended): commit never changes the working-copy path, and cleanup
(when the removal itself succeeds) removes the current working-copy
directory and everything at or below it, regardless of the commit
outcome; the enclosing temporary directory allocated during setup is not
removed (see the counterexample). -/
theorem git_cleanup_removes_working_copy (env env2 : GitEnv) (msg : String)
    (st : GitState) (fs : FS) (hrm : env.rmtreeFails = false) :
    (∀ st2, GitRepository.commit env2 msg st = .ok st2 → st2.wc = st.wc)
    ∧ (∀ fs2, GitRepository.cleanup env st fs = .ok fs2 →
        ∀ p, st.wc.isPrefixOf p = true →
          fs2.isdir p = false ∧ fs2.isfile p = false) := by
  constructor
  · intro st2 h
    simp only [GitRepository.commit] at h
    cases hs : env2.statusResult with
    | error e => rw [hs] at h; cases h
    | ok s =>
        rw [hs] at h
        simp only [Except.ok.injEq] at h
        rw [h]
  · intro fs2 h p hp
    simp only [GitRepository.cleanup, hrm] at h
    simp only [Bool.false_eq_true, if_false, Except.ok.injEq] at h
    rw [← h]
    exact ⟨FS.isdir_rmtree_under fs st.wc p hp,
      FS.isfile_rmtree_under fs st.wc p hp⟩

/-- C5 witness: the amended statement applied at a concrete cleanup of the
working copy `gitwc/easybuild`. -/
theorem witness_c5 :
    ((⟨[["gitwc"], ["gitwc", "easybuild"]], []⟩ : FS).rmtree
        ["gitwc", "easybuild"]).isdir ["gitwc", "easybuild"] = false
    ∧ ((⟨[["gitwc"], ["gitwc", "easybuild"]], []⟩ : FS).rmtree
        ["gitwc", "easybuild"]).isfile ["gitwc", "easybuild"] = false := by
  have H := git_cleanup_removes_working_copy gitEnv0 gitEnv0 "built gcc"
    ⟨"gitserver:easybuild", [], ["gitwc", "easybuild"], none⟩
    ⟨[["gitwc"], ["gitwc", "easybuild"]], []⟩ rfl
  exact H.2 _ rfl ["gitwc", "easybuild"] (by decide)

/-- C6: for every `addRecord` call on a readable source easyconfig, the
written record is the header, then the verbatim source content, then a
fresh list literal `buildstats = [ ...entries... ]` when `hasPrevious` is
false, and an append expression `buildstats.append( ...entries... )` when
`hasPrevious` is true. -/
theorem add_easyconfig_writes_stats_block (vv ts : String)
    (wc subdir cfg : FPath) (name version statsStr : String)
    (previous : Bool) (fs : FS) (c : String)
    (hcfg : fs.files.lookup cfg = some c) :
    ∃ fs', FileRepository.add_easyconfig vv ts wc subdir cfg name version
        statsStr previous fs
      = .ok (fs', wc ++ subdir ++ [name] ++ [version ++ ".eb"]) ∧
      fs'.files.lookup (wc ++ subdir ++ [name] ++ [version ++ ".eb"]) =
        some (headerLine vv ts ++ c ++
          (if previous then "\nbuildstats.append(" ++ statsStr ++ ")\n"
           else "\n# Build statistics\nbuildstats = [" ++ statsStr ++ "]\n")) := by
  refine ⟨_, add_easyconfig_eq vv ts wc subdir cfg name version statsStr
    previous fs c hcfg, ?_⟩
  rw [FS.lookup_writeFile]
  cases previous <;> rfl

/-- C6 witness: the statement at a concrete first write for (gcc, 4.8). -/
theorem witness_c6 :
    ∃ fs', FileRepository.add_easyconfig "1.0" "2013-01-01_10-00-00"
        ["repo"] [] ["cfg.eb"] "gcc" "4.8" "{time: 120}" false fs0
      = .ok (fs', ["repo"] ++ [] ++ ["gcc"] ++ ["4.8" ++ ".eb"]) ∧
      fs'.files.lookup (["repo"] ++ [] ++ ["gcc"] ++ ["4.8" ++ ".eb"]) =
        some (headerLine "1.0" "2013-01-01_10-00-00" ++ "name = gcc\n" ++
          (if false then "\nbuildstats.append(" ++ "{time: 120}" ++ ")\n"
           else "\n# Build statistics\nbuildstats = [" ++ "{time: 120}" ++ "]\n")) :=
  add_easyconfig_writes_stats_block "1.0" "2013-01-01_10-00-00" ["repo"] []
    ["cfg.eb"] "gcc" "4.8" "{time: 120}" false fs0 "name = gcc\n" (by rfl)

/-- C7: for every (name, version) that was never recorded — the package
directory or the version file is absent — `getStats` returns the empty
sequence instead of failing, for any behaviour of the external parser. -/
theorem get_buildstats_never_recorded (reader : String → List String)
    (wc subdir : FPath) (fs : FS) (name version : String)
    (h : fs.isdir (wc ++ subdir ++ [name]) = false ∨
         fs.files.lookup (wc ++ subdir ++ [name] ++ [version ++ ".eb"]) = none) :
    FileRepository.get_buildstats reader wc subdir fs name version = [] := by
  simp only [FileRepository.get_buildstats]
  rcases h with h | h
  · rw [h]
    rfl
  · by_cases hd : fs.isdir (wc ++ subdir ++ [name])
    · rw [hd, h]
      rfl
    · rw [Bool.not_eq_true] at hd
      rw [hd]
      rfl

/-- C7 witness: a never-recorded key on an empty filesystem. -/
theorem witness_c7 :
    FileRepository.get_buildstats (fun _ => []) ["r"] [] ⟨[], []⟩
      "neverbuilt" "1.0" = [] :=
  get_buildstats_never_recorded (fun _ => []) ["r"] [] ⟨[], []⟩
    "neverbuilt" "1.0" (Or.inl (by rfl))

/-- C8: for the distributed backend, a clone failure during working-copy
acquisition and commit/push failures during commit are caught and only
logged: acquisition still returns normally when clone fails (and the
subsequent pull succeeds), and commit returns normally for every outcome
of the commit and push primitives (given its status probe succeeds). -/
theorem git_remote_sync_failures_tolerated (envA envB : GitEnv)
    (stA stB : GitState) (fs : FS) (msg : String)
    (hclone : envA.cloneResult = .error ())
    (hpull : envA.pullResult = .ok ())
    (hstatus : exOk envB.statusResult = true) :
    exOk (GitRepository.create_working_copy envA stA fs) = true
    ∧ exOk (GitRepository.commit envB msg stB) = true := by
  constructor
  · simp only [GitRepository.create_working_copy, hclone, hpull]
    rfl
  · cases hs : envB.statusResult with
    | error e => rw [hs] at hstatus; simp [exOk] at hstatus
    | ok s => simp [GitRepository.commit, hs, exOk]

/-- C8 witness: an environment whose clone, commit and push all fail. -/
theorem witness_c8 :
    exOk (GitRepository.create_working_copy gitEnvFlaky
      { gitSt0 with wc := ["gitwc"], client := none } fs0) = true
    ∧ exOk (GitRepository.commit gitEnvFlaky "built gcc" gitSt0) = true :=
  git_remote_sync_failures_tolerated gitEnvFlaky gitEnvFlaky _ gitSt0 fs0
    "built gcc" rfl rfl rfl

/-- C9: for the centralized backend, when `update` returns a non-empty
result list, a full `checkout` is performed exactly when the first
result's revision number is the sentinel `-1`. -/
theorem svn_update_sentinel_drives_checkout (env : SvnEnv) (st : SvnState)
    (fs : FS) (r : Int) (rest : List Int)
    (hinfo : env.info2Result = .ok ())
    (hupd : env.updateResult = .ok (r :: rest)) :
    (SvnOp.checkout ∈ (SvnRepository.create_working_copy env st fs).1)
      ↔ r = -1 := by
  simp only [SvnRepository.create_working_copy, hinfo, hupd]
  by_cases hr : r = -1
  · rw [if_pos hr]
    cases env.checkoutResult <;> simp [hr]
  · rw [if_neg hr]
    simp only [List.mem_cons, List.not_mem_nil, or_false]
    constructor
    · intro h
      rcases h with h | h <;> cases h
    · intro h
      exact absurd h hr

/-- C9 witness: with `update` reporting `[-1]` the backend checks out. -/
theorem witness_c9 :
    SvnOp.checkout ∈ (SvnRepository.create_working_copy
      { svnEnv0 with updateResult := .ok [-1] } svnSt0 fs0).1 :=
  (svn_update_sentinel_drives_checkout _ svnSt0 fs0 (-1) [] rfl rfl).mpr rfl

/-- C10: for the centralized backend with a client session, `addRecord`
stages the written path exactly when its reported status is not already
versioned. -/
theorem svn_add_stages_iff_not_versioned (env : SvnEnv) (vv ts : String)
    (cfg : FPath) (name version statsStr : String) (previous : Bool)
    (st : SvnState) (fs : FS) (c : String) (v : Bool) (vs : List Bool)
    (hcfg : fs.files.lookup cfg = some c)
    (hclient : st.client = some ())
    (hstatus : env.statusResult = .ok (v :: vs)) :
    (SvnRepository.add_easyconfig env vv ts cfg name version statsStr
      previous st fs).1 = !v := by
  simp only [SvnRepository.add_easyconfig]
  rw [add_easyconfig_eq vv ts st.wc st.subdir cfg name version statsStr
    previous fs c hcfg]
  have hne : (st.wc ++ st.subdir ++ [name] ++ [version ++ ".eb"]) ≠ [] := by
    simp
  simp only [hclient, hstatus]
  rw [if_pos hne]
  cases v
  · cases env.addResult <;> simp
  · simp

/-- C10 witness: an unversioned destination is staged. -/
theorem witness_c10 :
    (SvnRepository.add_easyconfig svnEnv0 "1.0" "2013-01-01_10-00-00"
      ["cfg.eb"] "gcc" "4.8" "{time: 120}" false
      ⟨["svnserver"], [], ["repo"], some ()⟩ fs0).1 = !false :=
  svn_add_stages_iff_not_versioned svnEnv0 "1.0" "2013-01-01_10-00-00"
    ["cfg.eb"] "gcc" "4.8" "{time: 120}" false
    ⟨["svnserver"], [], ["repo"], some ()⟩ fs0 "name = gcc\n" false []
    rfl rfl rfl
